import Mathlib

/-!
Shallow embedding of the warm-transfer backend (src/backend/voice_agent.py and
src/backend/main.py): the agent registry and its lifecycle operations, the say
operation, and the transfer-orchestration endpoints, together with theorems
settling the behavioural claims about them.

Modelling conventions:
  - Python `os.getenv` results are `Option String`; Python truthiness of such a
    value (`None` and `""` are falsy) is `envTruthy`.
  - The module-level dict `_active_agents` is an association list
    `RegState = List (String × AgentInfo)`; in-place mutation of a registered
    agent object is modelled by rewriting its entry (`setRoom`), `dict.pop` by
    `popRoom`, and assignment of a fresh key by consing.
  - External effects that can raise (room connect/disconnect, participant
    listing/removal, the LLM call) are driven by explicit oracle fields; a
    caught Python exception becomes an ordinary branch, an uncaught one an
    `Except.error` value.
-/

set_option autoImplicit false

namespace WarmTransfer

/-- Truthiness of an `os.getenv` result as Python evaluates it: `None` is
absent and both `None` and the empty string are falsy. -/
def envTruthy : Option String → Bool
  | none => false
  | some s => !(s == "")

/-- Backend process environment: the variables read by voice_agent.py. -/
structure Env where
  openai_api_key : Option String
  livekit_url : Option String
  livekit_api_key : Option String
  livekit_api_secret : Option String
deriving DecidableEq

/-- State of one `VoiceAIAgent` object (voice_agent.py lines 39-53): `room` is
`some ()` once the `self.room` attribute has been assigned an `rtc.Room`
object (Python never clears it, even after disconnect), and `mock_mode` is
decided in `__init__` from the presence of `OPENAI_API_KEY`.  The never-written
`llm_client` / `tts_client` / `stt_client` fields are omitted. -/
structure VoiceAIAgent where
  room_name : String
  identity : String
  mock_mode : Bool
  running : Bool
  room : Option Unit
deriving DecidableEq

/-- Constructor `VoiceAIAgent.__init__`: `mock_mode = not self.openai_api_key`,
`running = False`, `room = None`. -/
def mkVoiceAIAgent (e : Env) (room_name identity : String) : VoiceAIAgent :=
  { room_name := room_name
    identity := identity
    mock_mode := !envTruthy e.openai_api_key
    running := false
    room := none }

/-- Observable outcome of `VoiceAIAgent.say` (voice_agent.py lines 152-171):
either the mock-mode log line, the "Room not connected" warning no-op, or the
logged request to render speech.  No branch raises. -/
inductive SayOutcome
  | mockLogged (text : String)
  | warnedNoRoom (text : String)
  | speechRequested (text : String)
deriving DecidableEq

/-- Method `VoiceAIAgent.say`: mock mode logs and returns; a missing `room`
object warns and returns; otherwise the utterance is logged for rendering. -/
def VoiceAIAgent.say (a : VoiceAIAgent) (text : String) : SayOutcome :=
  if a.mock_mode then .mockLogged text
  else
    match a.room with
    | none => .warnedNoRoom text
    | some _ => .speechRequested text

/-- Method `VoiceAIAgent.stop` (voice_agent.py lines 188-194): sets
`self.running = False`, then disconnects when a room object is present.  The
Bool reports whether the disconnect raised (`disconnectRaises` oracle, only
reachable when a room object exists); the agent returned is the state after
the in-place mutation, which happens before any disconnect attempt. -/
def VoiceAIAgent.stop (a : VoiceAIAgent) (disconnectRaises : Bool) :
    Bool × VoiceAIAgent :=
  (a.room.isSome && disconnectRaises, { a with running := false })

/-- Oracle for the effects inside `VoiceAIAgent.start`: whether
`initialize_ai_components` raises (its `except` then returns `False`), and
whether the LiveKit connect raises. -/
structure RunOracle where
  initRaises : Bool
  connectRaises : Bool
deriving DecidableEq

/-- Method `VoiceAIAgent.initialize_ai_components` (voice_agent.py lines
55-79): every non-raising path of the `try` body (mock mode, plugins missing,
real mode) returns `True`; the `except` branch returns `False`. -/
def init_ai_components (raises : Bool) : Bool :=
  !raises

/-- How a `VoiceAIAgent.start` invocation resolves: one of the three raising
exits (re-raised from the `except` branch after `running` is reset), or the
steady `while self.running` loop in mock or live mode. -/
inductive StartResult
  | raisedInit
  | raisedEnv
  | raisedConnect
  | loopingMock
  | loopingLive
deriving DecidableEq

/-- Whether a `start` invocation reported failure to the owner of its task
(i.e. re-raised) rather than reaching the running loop. -/
def startReportsFailure : StartResult → Bool
  | .raisedInit => true
  | .raisedEnv => true
  | .raisedConnect => true
  | .loopingMock => false
  | .loopingLive => false

/-- Method `VoiceAIAgent.start` (voice_agent.py lines 81-150): sets
`self.running = True`, initializes AI components (raising `RuntimeError` when
that fails), then either idles in mock mode, or checks the LiveKit variables
(raising `ValueError` when absent), assigns `self.room` and connects, greets,
and idles.  The `except` branch sets `running = False`, disconnects an
assigned room object without clearing the attribute, and re-raises. -/
def VoiceAIAgent.start (a : VoiceAIAgent) (e : Env) (o : RunOracle) :
    StartResult × VoiceAIAgent :=
  let a1 : VoiceAIAgent := { a with running := true }
  if !(init_ai_components o.initRaises) then
    (.raisedInit, { a1 with running := false })
  else if a1.mock_mode then
    (.loopingMock, a1)
  else if !(envTruthy e.livekit_url && envTruthy e.livekit_api_key
      && envTruthy e.livekit_api_secret) then
    (.raisedEnv, { a1 with running := false })
  else if o.connectRaises then
    (.raisedConnect, { a1 with running := false, room := some () })
  else
    (.loopingLive, { a1 with room := some () })

/-- One value of the `_active_agents` dict: the agent object and whether its
background task has completed (`task.done()`).  The constant `"type"` field is
omitted. -/
structure AgentInfo where
  agent : VoiceAIAgent
  taskDone : Bool
deriving DecidableEq

/-- The module-level registry `_active_agents`, as an association list from
room name to entry. -/
abbrev RegState := List (String × AgentInfo)

/-- Dictionary lookup `_active_agents.get(room_name)`. -/
def lookupRoom (s : RegState) (r : String) : Option AgentInfo :=
  (s.find? (fun p => p.1 == r)).map (fun p => p.2)

/-- Function `is_agent_running` (voice_agent.py lines 282-284): registry
membership only. -/
def is_agent_running (s : RegState) (room_name : String) : Bool :=
  (lookupRoom s room_name).isSome

/-- Function `get_agent_info` (voice_agent.py lines 287-289). -/
def get_agent_info (s : RegState) (room_name : String) : Option AgentInfo :=
  lookupRoom s room_name

/-- Pointwise rewrite of the entry keyed `r` to `v`, leaving others alone;
mapping it over the registry models in-place mutation of a registered value. -/
def replaceEntry (r : String) (v : AgentInfo) (p : String × AgentInfo) :
    String × AgentInfo :=
  if p.1 == r then (r, v) else p

/-- Rewrite the registry entry for `r` to `v` (mutation of the shared object
held by the dict). -/
def setRoom (s : RegState) (r : String) (v : AgentInfo) : RegState :=
  s.map (replaceEntry r v)

/-- Dictionary removal `_active_agents.pop(room_name, None)`. -/
def popRoom (s : RegState) (r : String) : RegState :=
  s.filter (fun p => !(p.1 == r))

theorem lookupRoom_nil (r : String) : lookupRoom [] r = none := rfl

theorem lookupRoom_cons (p : String × AgentInfo) (t : RegState) (r : String) :
    lookupRoom (p :: t) r = if p.1 == r then some p.2 else lookupRoom t r := by
  unfold lookupRoom
  cases h : p.1 == r <;> simp [List.find?_cons, h]

theorem lookupRoom_setRoom (s : RegState) (r : String) (v : AgentInfo)
    (h : (lookupRoom s r).isSome = true) :
    lookupRoom (setRoom s r v) r = some v := by
  induction s with
  | nil => simp [lookupRoom] at h
  | cons p t ih =>
      cases hp : p.1 == r with
      | true =>
          simp [setRoom, List.map_cons, lookupRoom_cons, replaceEntry, hp]
      | false =>
          have ht : (lookupRoom t r).isSome = true := by
            rw [lookupRoom_cons] at h
            simpa [hp] using h
          have := ih ht
          simpa [setRoom, List.map_cons, lookupRoom_cons, replaceEntry, hp]
            using this

theorem lookupRoom_popRoom (s : RegState) (r : String) :
    lookupRoom (popRoom s r) r = none := by
  induction s with
  | nil => rfl
  | cons p t ih =>
      cases hp : p.1 == r with
      | true => simpa [popRoom, List.filter_cons, hp] using ih
      | false =>
          simpa [popRoom, List.filter_cons, hp, lookupRoom_cons] using ih

theorem replaceEntry_idem (r : String) (v : AgentInfo) (p : String × AgentInfo) :
    replaceEntry r v (replaceEntry r v p) = replaceEntry r v p := by
  unfold replaceEntry
  cases hp : p.1 == r <;> simp [hp]

theorem setRoom_setRoom (s : RegState) (r : String) (v : AgentInfo) :
    setRoom (setRoom s r v) r v = setRoom s r v := by
  induction s with
  | nil => rfl
  | cons p t ih =>
      simp only [setRoom, List.map_cons] at *
      rw [replaceEntry_idem]
      exact congrArg _ ih

/-- List of unset LiveKit variables computed in `start_agent_job`
(voice_agent.py lines 205-206), in source order. -/
def missingVars (e : Env) : List String :=
  (if envTruthy e.livekit_url then [] else ["LIVEKIT_URL"]) ++
    (if envTruthy e.livekit_api_key then [] else ["LIVEKIT_API_KEY"]) ++
      (if envTruthy e.livekit_api_secret then [] else ["LIVEKIT_API_SECRET"])

/-- Exception raised by `start_agent_job` itself: the `ValueError` for missing
real-mode environment variables. -/
inductive StartJobError
  | missingEnvVars (vars : List String)
deriving DecidableEq

/-- Function `start_agent_job` (voice_agent.py lines 197-234): if the room is
already registered it logs and falls off the end of the function, returning
`None` (modelled as the `none` handle) and leaving the registry untouched;
else, when LiveKit variables are missing and an OpenAI key forces real mode,
it raises `ValueError`; otherwise it constructs a `VoiceAIAgent`, spawns
`agent.start()` as a background task (the task itself is not run here),
registers the entry, and returns the task handle (modelled by the registered
agent). -/
def start_agent_job (e : Env) (s : RegState) (room_name identity : String) :
    Except StartJobError (RegState × Option VoiceAIAgent) :=
  if (lookupRoom s room_name).isSome then
    .ok (s, none)
  else if !(missingVars e).isEmpty && envTruthy e.openai_api_key then
    .error (.missingEnvVars (missingVars e))
  else
    let agent := mkVoiceAIAgent e room_name identity
    .ok ((room_name, { agent := agent, taskDone := false }) :: s, some agent)

/-- Function `stop_agent_job` (voice_agent.py lines 237-266): a missing entry
returns immediately; otherwise `agent.stop()` runs, the task is cancelled and
awaited (its `CancelledError` swallowed), and the entry is popped.  Any
exception inside the `try` (modelled: the disconnect inside `agent.stop`) is
caught and logged, so the call still returns normally, but then the pop is
never reached; the in-place mutation `running = False` performed before the
raise is still visible through the registry. -/
def stop_agent_job (s : RegState) (room_name : String)
    (disconnectRaises : Bool) : RegState :=
  match lookupRoom s room_name with
  | none => s
  | some info =>
      let stopped := info.agent.stop disconnectRaises
      if stopped.1 then
        setRoom s room_name { info with agent := stopped.2 }
      else
        popRoom s room_name

/-- Result of `agent_say` (voice_agent.py lines 269-279): the `RuntimeError`
"No Voice AI agent running" when the room has no registry entry, else the
outcome of `agent.say(text)`.  The second `RuntimeError` branch ("does not
support speech") is unreachable: every registry entry is created with a
`VoiceAIAgent`, which has `say`. -/
inductive AgentSayResult
  | noActiveAgentError
  | said (o : SayOutcome)
deriving DecidableEq

/-- Function `agent_say`: registry lookup, then delegate to the agent. -/
def agent_say (s : RegState) (room_name text : String) : AgentSayResult :=
  match lookupRoom s room_name with
  | none => .noActiveAgentError
  | some info => .said (info.agent.say text)

/-- The spec's notion backing the `NoActiveAgent` contract: some session for
the room exists in the registry and is in a non-Stopped state (its `running`
flag is set). -/
def hasNonStoppedSession (s : RegState) (r : String) : Bool :=
  match lookupRoom s r with
  | some info => info.agent.running
  | none => false

/-- Composition of `start_agent_job` with the completion of its spawned
background task: after a fresh registration the task runs `agent.start` to
its resolution, and the in-place mutations of the shared agent object become
visible through the registry entry; `taskDone` records whether the task
finished (by re-raising) rather than idling in the running loop.  A duplicate
start spawns no task. -/
def startJobAndRunTask (e : Env) (s : RegState) (room_name identity : String)
    (o : RunOracle) : Except StartJobError (RegState × Option StartResult) :=
  match start_agent_job e s room_name identity with
  | .error err => .error err
  | .ok (s1, none) => .ok (s1, none)
  | .ok (s1, some agent) =>
      let run := agent.start e o
      .ok (setRoom s1 room_name
        { agent := run.2, taskDone := startReportsFailure run.1 }, some run.1)

/-- Count of registry entries keyed by a given room. -/
def roomCount (s : RegState) (r : String) : Nat :=
  (s.filter (fun p => p.1 == r)).length

/-- The at-most-one-agent-per-room registry invariant. -/
def atMostOnePerRoom (s : RegState) : Prop :=
  ∀ r : String, roomCount s r ≤ 1

theorem roomCount_eq_zero_of_lookup_none (s : RegState) (r : String)
    (h : lookupRoom s r = none) : roomCount s r = 0 := by
  induction s with
  | nil => rfl
  | cons p t ih =>
      rw [lookupRoom_cons] at h
      cases hp : p.1 == r with
      | true => simp [hp] at h
      | false =>
          have := ih (by simpa [hp] using h)
          simpa [roomCount, List.filter_cons, hp] using this

/-- One LiveKit room participant, as much of it as the backend inspects. -/
structure Participant where
  identity : String
deriving DecidableEq

/-- Transport-level failures of the LiveKit API calls made by main.py. -/
inductive TransportError
  | listFailed
  | removeFailed
deriving DecidableEq

/-- Oracle for the external Room Service: the participants of each room, and
whether the list / remove API calls raise at transport level. -/
structure RoomWorld where
  participants : String → List Participant
  listRaises : Bool
  removeRaises : Bool

/-- Raw API call `lk_api.room.list_participants`, which can raise. -/
def list_participants_api (w : RoomWorld) (room : String) :
    Except TransportError (List Participant) :=
  if w.listRaises then .error .listFailed else .ok (w.participants room)

/-- Raw API call `lk_api.room.remove_participant`, which can raise. -/
def remove_participant_api (w : RoomWorld) :
    Except TransportError Unit :=
  if w.removeRaises then .error .removeFailed else .ok ()

/-- Function `remove_participant_from_room` (main.py lines 117-150): lists the
room's participants, scans for the first one whose identity matches, and
issues the removal on a match.  Its `except Exception` catches every raised
error — transport failures included — and returns `False`, the same value as
the participant-absent case; only a found-and-removed run returns `True`. -/
def remove_participant_from_room (w : RoomWorld) (room_name identity : String) :
    Bool :=
  match list_participants_api w room_name with
  | .error _ => false
  | .ok participants =>
      match participants.find? (fun p => p.identity == identity) with
      | none => false
      | some _ =>
          match remove_participant_api w with
          | .error _ => false
          | .ok _ => true

/-- Request body of `POST /complete-transfer` (main.py lines 175-178). -/
structure CompleteTransferRequest where
  original_room_name : String
  agent_a_identity : String
  agent_b_identity : String
deriving DecidableEq

/-- Response body of `POST /complete-transfer` (main.py lines 180-182). -/
structure SuccessResponse where
  success : Bool
  message : String
deriving DecidableEq

/-- The literal failure message of `complete_transfer` (main.py line 327). -/
def transferFailedMessage : String :=
  "Transfer signal sent, but could not automatically remove participant. Manual disconnect may be required."

/-- Endpoint `complete_transfer` (main.py lines 299-332): delegates to
`remove_participant_from_room` and wraps the Bool in a `SuccessResponse`.
The surrounding `try`/`except` that would map an uncaught exception to an
HTTP 500 (`Except.error 500`) is kept in the return type; no branch of the
body reaches it, because `remove_participant_from_room` catches every
transport error internally. -/
def complete_transfer (w : RoomWorld) (req : CompleteTransferRequest) :
    Except Nat SuccessResponse :=
  if remove_participant_from_room w req.original_room_name req.agent_a_identity then
    .ok { success := true
          message := "Transfer completed. " ++ req.agent_a_identity
            ++ " removed from " ++ req.original_room_name }
  else
    .ok { success := false, message := transferFailedMessage }

/-- Projection of the always-produced structured response of
`complete_transfer`. -/
def completeTransferResponse (w : RoomWorld) (req : CompleteTransferRequest) :
    SuccessResponse :=
  match complete_transfer w req with
  | .ok r => r
  | .error _ => { success := false, message := "" }

/-- Oracle for the Groq summarization service: the configured key, whether
the LLM call raises, and the summary it returns when it does not. -/
structure GroqWorld where
  api_key : Option String
  llmRaises : Bool
  llmSummary : String
deriving DecidableEq

/-- The guard of `initiate_transfer` (main.py line 261):
`not GROQ_API_KEY or GROQ_API_KEY == "your_groq_api_key_here"`. -/
def groqUnconfigured (k : Option String) : Bool :=
  !envTruthy k || k == some "your_groq_api_key_here"

/-- The marker opening the degraded-mode summary (main.py line 263). -/
def mockSummaryMarker : String := "Mock Summary: Call context provided - "

/-- The fixed text closing the degraded-mode summary (main.py line 263). -/
def mockSummaryTail : String :=
  "... (Please configure GROQ_API_KEY for AI-generated summaries)"

/-- Response body of `POST /initiate-transfer` (main.py lines 172-173). -/
structure TransferResponse where
  summary : String
deriving DecidableEq

/-- Endpoint `initiate_transfer` (main.py lines 248-297): with the Groq key
unconfigured it returns the mock summary built from the first 100 characters
of the raw call context; otherwise it calls the LLM, whose raised exceptions
the `except` maps to HTTP 500. -/
def initiate_transfer (g : GroqWorld) (call_context : String) :
    Except Nat TransferResponse :=
  if groqUnconfigured g.api_key then
    .ok { summary := mockSummaryMarker ++ call_context.take 100 ++ mockSummaryTail }
  else if g.llmRaises then
    .error 500
  else
    .ok { summary := g.llmSummary }

/-- Substring containment, witnessed by an explicit split. -/
def containsText (s pat : String) : Prop :=
  ∃ pre post : String, s = pre ++ pat ++ post

theorem transferFailedMessage_contains :
    containsText transferFailedMessage "could not automatically remove" :=
  ⟨"Transfer signal sent, but ",
   " participant. Manual disconnect may be required.", rfl⟩

theorem find?_eq_none_iff_any_eq_false (ps : List Participant) (aid : String) :
    ps.find? (fun p => p.identity == aid) = none
      ↔ ps.any (fun p => p.identity == aid) = false := by
  induction ps with
  | nil => simp
  | cons q t ih =>
      cases hq : q.identity == aid <;>
        simp [List.find?_cons, List.any_cons, hq, ih]

/-- The spec's phrase "a matching participant was actually found and removed"
as a predicate on the Room Service oracle: the listing succeeded, some listed
participant carries the requested identity, and the removal call succeeded. -/
def participantFoundAndRemoved (w : RoomWorld) (room aid : String) : Bool :=
  !w.listRaises && (w.participants room).any (fun p => p.identity == aid)
    && !w.removeRaises

theorem any_eq_true_of_find?_eq_some (ps : List Participant) (aid : String)
    (q : Participant) (h : ps.find? (fun p => p.identity == aid) = some q) :
    ps.any (fun p => p.identity == aid) = true := by
  cases hany : ps.any (fun p => p.identity == aid) with
  | false =>
      rw [(find?_eq_none_iff_any_eq_false ps aid).2 hany] at h
      cases h
  | true => rfl

theorem remove_participant_eq_foundAndRemoved (w : RoomWorld)
    (room aid : String) :
    remove_participant_from_room w room aid
      = participantFoundAndRemoved w room aid := by
  unfold remove_participant_from_room participantFoundAndRemoved
    list_participants_api remove_participant_api
  cases hl : w.listRaises with
  | true => simp [hl]
  | false =>
      cases hf : (w.participants room).find? (fun p => p.identity == aid) with
      | none =>
          simp [hl, hf, (find?_eq_none_iff_any_eq_false _ aid).1 hf]
      | some q =>
          cases hr : w.removeRaises <;>
            simp [hl, hf, hr, any_eq_true_of_find?_eq_some _ aid q hf]

theorem complete_transfer_eq_ok (w : RoomWorld) (req : CompleteTransferRequest) :
    complete_transfer w req = .ok (completeTransferResponse w req) := by
  unfold completeTransferResponse
  cases h : complete_transfer w req with
  | ok r => rfl
  | error e =>
      exfalso
      unfold complete_transfer at h
      split at h <;> simp at h

theorem completeTransferResponse_success (w : RoomWorld) (room aid bid : String) :
    (completeTransferResponse w ⟨room, aid, bid⟩).success
      = participantFoundAndRemoved w room aid := by
  cases hpf : participantFoundAndRemoved w room aid <;>
    simp [completeTransferResponse, complete_transfer,
      remove_participant_eq_foundAndRemoved, hpf]

theorem completeTransferResponse_of_not_removed (w : RoomWorld)
    (room aid bid : String) (h : participantFoundAndRemoved w room aid = false) :
    completeTransferResponse w ⟨room, aid, bid⟩
      = { success := false, message := transferFailedMessage } := by
  simp [completeTransferResponse, complete_transfer,
    remove_participant_eq_foundAndRemoved, h]

/-- C2: for every `complete_transfer` request, the structured result has
`success = true` exactly when a participant with the outgoing agent's identity
was found in the original room and removed; when no matching participant
exists the result is `success = false` with a message containing "could not
automatically remove", and the endpoint returns this structured outcome
rather than raising. -/
theorem complete_transfer_success_iff_found_and_removed (w : RoomWorld)
    (room aid bid : String) :
    complete_transfer w ⟨room, aid, bid⟩
        = .ok (completeTransferResponse w ⟨room, aid, bid⟩)
      ∧ (completeTransferResponse w ⟨room, aid, bid⟩).success
          = participantFoundAndRemoved w room aid
      ∧ ((w.participants room).any (fun p => p.identity == aid) = false →
          (completeTransferResponse w ⟨room, aid, bid⟩).success = false
            ∧ containsText (completeTransferResponse w ⟨room, aid, bid⟩).message
                "could not automatically remove") := by
  refine ⟨complete_transfer_eq_ok w _, completeTransferResponse_success w room aid bid, ?_⟩
  intro hany
  have hpf : participantFoundAndRemoved w room aid = false := by
    simp [participantFoundAndRemoved, hany]
  rw [completeTransferResponse_of_not_removed w room aid bid hpf]
  exact ⟨rfl, transferFailedMessage_contains⟩

/-- Room Service oracle with no participants anywhere and no transport
failures. -/
def emptyQuietWorld : RoomWorld :=
  { participants := fun _ => [], listRaises := false, removeRaises := false }

/-- Witness for C2: evaluated on a world where "agent-a" is not a participant
of "room-42", the structured outcome is `success = false` with the expected
message. -/
theorem complete_transfer_success_iff_found_and_removed_witness :
    complete_transfer emptyQuietWorld ⟨"room-42", "agent-a", "agent-b"⟩
        = .ok (completeTransferResponse emptyQuietWorld ⟨"room-42", "agent-a", "agent-b"⟩)
      ∧ (completeTransferResponse emptyQuietWorld ⟨"room-42", "agent-a", "agent-b"⟩).success = false
      ∧ containsText
          (completeTransferResponse emptyQuietWorld ⟨"room-42", "agent-a", "agent-b"⟩).message
          "could not automatically remove" := by
  have h := complete_transfer_success_iff_found_and_removed emptyQuietWorld
    "room-42" "agent-a" "agent-b"
  exact ⟨h.1, (h.2.2 rfl).1, (h.2.2 rfl).2⟩

/-- Room Service oracle where "agent-a" is present in every room but the
participant-listing API call fails at transport level. -/
def listRaisingWorldWithAgentA : RoomWorld :=
  { participants := fun _ => [{ identity := "agent-a" }]
    listRaises := true
    removeRaises := false }

/-- C3 counterexample: with "agent-a" present in "room-42" but the listing
call failing at transport level, `complete_transfer` returns the structured
`success = false` outcome — the same one produced for an absent participant —
instead of propagating a hard failure (`Except.error 500`). -/
theorem transport_error_structured_counterexample :
    listRaisingWorldWithAgentA.listRaises = true
      ∧ complete_transfer listRaisingWorldWithAgentA ⟨"room-42", "agent-a", "agent-b"⟩
          = .ok { success := false, message := transferFailedMessage } := by
  exact ⟨rfl, rfl⟩

/-- C3 amended: a transport-level error while listing or while removing
participants is caught inside `remove_participant_from_room`, so
`complete_transfer` reports the structured `success = false` outcome with
the "could not automatically remove" message — indistinguishable from the
participant-absent case — and never propagates the error to the caller. -/
theorem transport_error_yields_structured_failure (w : RoomWorld)
    (room aid bid : String) :
    (w.listRaises = true →
        complete_transfer w ⟨room, aid, bid⟩
          = .ok { success := false, message := transferFailedMessage })
      ∧ (w.removeRaises = true →
          complete_transfer w ⟨room, aid, bid⟩
            = .ok { success := false, message := transferFailedMessage })
      ∧ containsText transferFailedMessage "could not automatically remove" := by
  refine ⟨fun hl => ?_, fun hr => ?_, transferFailedMessage_contains⟩
  · have hpf : participantFoundAndRemoved w room aid = false := by
      simp [participantFoundAndRemoved, hl]
    rw [complete_transfer_eq_ok w _, completeTransferResponse_of_not_removed w room aid bid hpf]
  · have hpf : participantFoundAndRemoved w room aid = false := by
      simp [participantFoundAndRemoved, hr]
    rw [complete_transfer_eq_ok w _, completeTransferResponse_of_not_removed w room aid bid hpf]

/-- Witness for C3's amended theorem, at the transport-failing world. -/
theorem transport_error_yields_structured_failure_witness :
    complete_transfer listRaisingWorldWithAgentA ⟨"room-42", "agent-a", "agent-b"⟩
        = .ok { success := false, message := transferFailedMessage }
      ∧ containsText transferFailedMessage "could not automatically remove" := by
  have h := transport_error_yields_structured_failure listRaisingWorldWithAgentA
    "room-42" "agent-a" "agent-b"
  exact ⟨h.1 rfl, h.2.2⟩

/-- C6: whenever the summarization credential is unconfigured (absent, empty,
or the placeholder value), `initiate_transfer` succeeds — it does not fail the
transfer — and its summary is the fixed mock marker followed by the first 100
characters of the raw call context; the marker itself carries the "Mock"
token. -/
theorem initiate_transfer_unconfigured_mock_summary (g : GroqWorld)
    (call_context : String) (h : groqUnconfigured g.api_key = true) :
    initiate_transfer g call_context
        = .ok { summary := mockSummaryMarker ++ call_context.take 100
            ++ mockSummaryTail }
      ∧ containsText mockSummaryMarker "Mock" := by
  refine ⟨?_, "", " Summary: Call context provided - ", rfl⟩
  simp [initiate_transfer, h]

/-- Groq oracle with no key configured at all. -/
def groqUnset : GroqWorld := { api_key := none, llmRaises := false, llmSummary := "" }

/-- Witness for C6, on the spec's Scenario A call context. -/
theorem initiate_transfer_unconfigured_mock_summary_witness :
    initiate_transfer groqUnset
        "Customer reports billing double-charge, troubleshooting in progress"
        = .ok { summary := mockSummaryMarker
            ++ ("Customer reports billing double-charge, troubleshooting in progress" : String).take 100
            ++ mockSummaryTail }
      ∧ containsText mockSummaryMarker "Mock" :=
  initiate_transfer_unconfigured_mock_summary groqUnset
    "Customer reports billing double-charge, troubleshooting in progress" rfl

/-- C9: `say` on a Simulated-mode (mock) session only records the utterance —
no transport effect, no error — and on a Live-mode session whose room object
is absent it is a warning no-op rather than an error; in both cases the call
resolves to a `SayOutcome`, never a raise. -/
theorem say_noop_in_simulated_or_disconnected (a : VoiceAIAgent) (t : String) :
    (a.mock_mode = true → a.say t = .mockLogged t)
      ∧ (a.mock_mode = false → a.room = none → a.say t = .warnedNoRoom t) := by
  constructor
  · intro h
    simp [VoiceAIAgent.say, h]
  · intro h hr
    simp [VoiceAIAgent.say, h, hr]

/-- A mock-mode session as produced by Scenario C's `start_agent` with no
speech-synthesis credential configured. -/
def simulatedAgentRoom7 : VoiceAIAgent :=
  { room_name := "room-7", identity := "AI Assistant", mock_mode := true
    running := true, room := none }

/-- A live-mode session whose real-time connection is absent. -/
def liveNoRoomAgent : VoiceAIAgent :=
  { room_name := "room-3", identity := "AI Agent", mock_mode := false
    running := true, room := none }

/-- Witness for C9, at one Simulated-mode and one disconnected Live-mode
session. -/
theorem say_noop_in_simulated_or_disconnected_witness :
    simulatedAgentRoom7.say "hello" = .mockLogged "hello"
      ∧ liveNoRoomAgent.say "hello" = .warnedNoRoom "hello" :=
  ⟨(say_noop_in_simulated_or_disconnected simulatedAgentRoom7 "hello").1 rfl,
   (say_noop_in_simulated_or_disconnected liveNoRoomAgent "hello").2 rfl rfl⟩

theorem roomCount_cons (p : String × AgentInfo) (t : RegState) (r : String) :
    roomCount (p :: t) r = (if p.1 == r then 1 else 0) + roomCount t r := by
  cases hp : p.1 == r <;>
    simp [roomCount, List.filter_cons, hp, Nat.add_comm]

theorem atMostOne_singleton (p : String × AgentInfo) : atMostOnePerRoom [p] := by
  intro r
  rw [roomCount_cons]
  cases h : p.1 == r <;> simp [h, roomCount]

/-- Environment with no variable configured: mock mode, no LiveKit. -/
def envAllUnset : Env :=
  { openai_api_key := none, livekit_url := none
    livekit_api_key := none, livekit_api_secret := none }

/-- A freshly registered agent for "room-1". -/
def agentRoom1 : VoiceAIAgent := mkVoiceAIAgent envAllUnset "room-1" "AI Agent"

/-- Registry entry holding `agentRoom1`. -/
def infoRoom1 : AgentInfo := { agent := agentRoom1, taskDone := false }

/-- Registry already holding an agent for "room-1". -/
def regWithRoom1 : RegState := [("room-1", infoRoom1)]

/-- C1 counterexample: with an agent already registered for "room-1",
`start_agent_job` returns the `none` handle — Python's bare `return`, i.e.
`None` — not the existing session, though it does leave the registry
unchanged. -/
theorem duplicate_start_returns_none_counterexample :
    start_agent_job envAllUnset regWithRoom1 "room-1" "AI Agent"
        = .ok (regWithRoom1, none)
      ∧ lookupRoom regWithRoom1 "room-1" = some infoRoom1
      ∧ (none : Option VoiceAIAgent) ≠ some infoRoom1.agent := by
  refine ⟨rfl, by decide, by simp⟩

/-- C1 amended: when an entry for the room already exists, `start_agent_job`
returns immediately with no handle (`None`, not the existing session) and
without constructing or registering a second Agent Process — the registry is
returned unchanged — and every outcome of `start_agent_job` preserves the
at-most-one-registered-session-per-room invariant. -/
theorem duplicate_start_no_second_registration (e : Env) (s : RegState)
    (room_name identity : String) :
    ((lookupRoom s room_name).isSome = true →
        start_agent_job e s room_name identity = .ok (s, none))
      ∧ (atMostOnePerRoom s → ∀ (s1 : RegState) (h : Option VoiceAIAgent),
          start_agent_job e s room_name identity = .ok (s1, h) →
            atMostOnePerRoom s1) := by
  constructor
  · intro h
    simp [start_agent_job, h]
  · intro hinv s1 hh heq
    unfold start_agent_job at heq
    by_cases hpresent : (lookupRoom s room_name).isSome = true
    · simp only [hpresent, if_pos] at heq
      simp only [Except.ok.injEq, Prod.mk.injEq] at heq
      rw [← heq.1]
      exact hinv
    · simp only [hpresent, if_neg, Bool.false_eq_true, not_false_eq_true] at heq
      by_cases hmiss : (!(missingVars e).isEmpty && envTruthy e.openai_api_key) = true
      · simp [hmiss] at heq
      · simp only [hmiss, if_neg, Bool.false_eq_true, not_false_eq_true,
          Except.ok.injEq, Prod.mk.injEq] at heq
        rw [← heq.1]
        intro r
        rw [roomCount_cons]
        have hnone : lookupRoom s room_name = none := by
          cases hl : lookupRoom s room_name with
          | none => rfl
          | some v => rw [hl] at hpresent; simp at hpresent
        cases hbeq : (room_name == r) with
        | false => simpa [hbeq] using hinv r
        | true =>
            have : r = room_name := (eq_of_beq hbeq).symm
            subst this
            rw [roomCount_eq_zero_of_lookup_none s r hnone]
            simp [hbeq]

/-- Witness for C1's amended theorem, on a registry already holding
"room-1". -/
theorem duplicate_start_no_second_registration_witness :
    start_agent_job envAllUnset regWithRoom1 "room-1" "AI Agent"
        = .ok (regWithRoom1, none)
      ∧ atMostOnePerRoom regWithRoom1 :=
  ⟨(duplicate_start_no_second_registration envAllUnset regWithRoom1
      "room-1" "AI Agent").1 (by decide),
   (duplicate_start_no_second_registration envAllUnset regWithRoom1
      "room-1" "AI Agent").2 (atMostOne_singleton _) regWithRoom1 none
      ((duplicate_start_no_second_registration envAllUnset regWithRoom1
        "room-1" "AI Agent").1 (by decide))⟩

/-- A session whose start attempt failed: Stopped (`running = false`) yet
still registered, with its background task finished. -/
def stoppedAgentRoom1 : VoiceAIAgent :=
  { room_name := "room-1", identity := "AI Agent", mock_mode := true
    running := false, room := none }

/-- Registry entry holding the Stopped session. -/
def stoppedInfoRoom1 : AgentInfo := { agent := stoppedAgentRoom1, taskDone := true }

/-- Registry whose only session is Stopped but never unregistered. -/
def regWithStoppedRoom1 : RegState := [("room-1", stoppedInfoRoom1)]

/-- C4 counterexample: a Stopped session that is still registered — the state
left behind by a failed startup or a failed stop — does not make `agent_say`
fail with `NoActiveAgent`: the call succeeds although no session for the room
is in a non-Stopped state, refuting the only-if direction of the claim. -/
theorem agent_say_stopped_session_counterexample :
    hasNonStoppedSession regWithStoppedRoom1 "room-1" = false
      ∧ agent_say regWithStoppedRoom1 "room-1" "hello" ≠ .noActiveAgentError
      ∧ agent_say regWithStoppedRoom1 "room-1" "hello"
          = .said (.mockLogged "hello") := by
  refine ⟨by decide, by decide, by decide⟩

/-- C4 amended: `agent_say` fails with `NoActiveAgent` iff the registry has no
entry for the room at all — membership, not liveness, is what the code checks
— so a registered non-Stopped session never triggers the failure, but a
registered Stopped session does not trigger it either. -/
theorem agent_say_fails_iff_no_entry (s : RegState) (room_name text : String) :
    (agent_say s room_name text = .noActiveAgentError
        ↔ lookupRoom s room_name = none)
      ∧ (hasNonStoppedSession s room_name = true →
          agent_say s room_name text ≠ .noActiveAgentError) := by
  constructor
  · unfold agent_say
    cases h : lookupRoom s room_name <;> simp
  · intro hn
    unfold hasNonStoppedSession at hn
    unfold agent_say
    cases h : lookupRoom s room_name with
    | none => simp [h] at hn
    | some info => simp

/-- Registry entry holding the running Simulated-mode session of Scenario C. -/
def runningInfoRoom7 : AgentInfo := { agent := simulatedAgentRoom7, taskDone := false }

/-- Registry holding the running "room-7" session. -/
def regWithRunningRoom7 : RegState := [("room-7", runningInfoRoom7)]

/-- Witness for C4's amended theorem: the empty registry fails with
`NoActiveAgent`, and a registered running session does not. -/
theorem agent_say_fails_iff_no_entry_witness :
    agent_say [] "room-7" "hello" = .noActiveAgentError
      ∧ agent_say regWithRunningRoom7 "room-7" "hello" ≠ .noActiveAgentError :=
  ⟨(agent_say_fails_iff_no_entry [] "room-7" "hello").1.2 rfl,
   (agent_say_fails_iff_no_entry regWithRunningRoom7 "room-7" "hello").2
     (by decide)⟩

/-- C5: `stop_agent_job` is idempotent — a second call in a row (under the
same disconnect behaviour) leaves the registry exactly as one call does — and
in particular, when no entry exists for the room, it returns immediately
without error and without mutating the registry. -/
theorem stop_agent_job_idempotent (s : RegState) (room_name : String)
    (b : Bool) :
    stop_agent_job (stop_agent_job s room_name b) room_name b
        = stop_agent_job s room_name b
      ∧ (lookupRoom s room_name = none → stop_agent_job s room_name b = s) := by
  refine ⟨?_, fun h => by simp [stop_agent_job, h]⟩
  cases hl : lookupRoom s room_name with
  | none => simp [stop_agent_job, hl]
  | some info =>
      cases hb : (info.agent.stop b).1 with
      | false =>
          simp [stop_agent_job, hl, hb, lookupRoom_popRoom]
      | true =>
          have hs : lookupRoom
              (setRoom s room_name { info with agent := (info.agent.stop b).2 })
              room_name
              = some { info with agent := (info.agent.stop b).2 } :=
            lookupRoom_setRoom s room_name _ (by simp [hl])
          have hb1 : (((info.agent.stop b).2).stop b).1 = true := by
            simp only [VoiceAIAgent.stop] at hb ⊢
            exact hb
          have hfix : (((info.agent.stop b).2).stop b).2 = (info.agent.stop b).2 := by
            simp [VoiceAIAgent.stop]
          simp [stop_agent_job, hl, hb, hs, hb1, hfix, setRoom_setRoom]

/-- Witness for C5 on the empty registry: a stop with no entry is a no-op and
a second stop changes nothing. -/
theorem stop_agent_job_idempotent_witness :
    stop_agent_job (stop_agent_job [] "room-1" false) "room-1" false
        = stop_agent_job [] "room-1" false
      ∧ stop_agent_job [] "room-1" false = ([] : RegState) :=
  ⟨(stop_agent_job_idempotent [] "room-1" false).1,
   (stop_agent_job_idempotent [] "room-1" false).2 rfl⟩

/-- C7: when AI-component initialization fails during `start`, the invocation
resolves by re-raising — reporting failure to the owner of its task — with
the session's `running` flag false; it never reaches the running loop. -/
theorem start_init_failure_fails_closed (a : VoiceAIAgent) (e : Env)
    (o : RunOracle) (h : o.initRaises = true) :
    (a.start e o).1 = .raisedInit
      ∧ startReportsFailure (a.start e o).1 = true
      ∧ (a.start e o).2.running = false := by
  simp [VoiceAIAgent.start, init_ai_components, h, startReportsFailure]

/-- Witness for C7 on a fresh mock-mode agent whose initialization raises. -/
theorem start_init_failure_fails_closed_witness :
    ((mkVoiceAIAgent envAllUnset "room-9" "AI Agent").start envAllUnset
        ⟨true, false⟩).1 = .raisedInit
      ∧ startReportsFailure
          ((mkVoiceAIAgent envAllUnset "room-9" "AI Agent").start envAllUnset
            ⟨true, false⟩).1 = true
      ∧ ((mkVoiceAIAgent envAllUnset "room-9" "AI Agent").start envAllUnset
          ⟨true, false⟩).2.running = false :=
  start_init_failure_fails_closed (mkVoiceAIAgent envAllUnset "room-9" "AI Agent")
    envAllUnset ⟨true, false⟩ rfl

/-- Registry left by a run of `startJobAndRunTask`. -/
def registryAfterRun
    (x : Except StartJobError (RegState × Option StartResult)) : RegState :=
  match x with
  | .ok p => p.1
  | .error _ => []

/-- Resolution of the background task spawned by `startJobAndRunTask`. -/
def taskResultAfterRun
    (x : Except StartJobError (RegState × Option StartResult)) :
    Option StartResult :=
  match x with
  | .ok p => p.2
  | .error _ => none

/-- Oracle making AI-component initialization raise. -/
def oracleInitFail : RunOracle := { initRaises := true, connectRaises := false }

/-- C8 counterexample: after a fresh `start_agent_job` whose background
`start()` task fails unrecoverably, the registry entry for the room remains —
nothing on that path removes it — so `is_agent_running` still returns true,
refuting the claim that no entry remains after an unrecoverable startup
failure. -/
theorem startup_failure_entry_remains_counterexample :
    taskResultAfterRun
        (startJobAndRunTask envAllUnset [] "room-1" "AI Agent" oracleInitFail)
        = some .raisedInit
      ∧ is_agent_running
          (registryAfterRun
            (startJobAndRunTask envAllUnset [] "room-1" "AI Agent" oracleInitFail))
          "room-1" = true := by
  refine ⟨by decide, by decide⟩

/-- C8 amended: an Agent Session is removed from the registry only by a
successful `stop_agent_job`; after an unrecoverable startup failure the
registry entry for its room remains — `is_agent_running` still returns true —
until an explicit stop, which then removes it. -/
theorem startup_failure_keeps_entry_until_stop (e : Env) (s : RegState)
    (room_name identity : String) (o : RunOracle)
    (h0 : lookupRoom s room_name = none)
    (h1 : o.initRaises = true)
    (h2 : (!(missingVars e).isEmpty && envTruthy e.openai_api_key) = false) :
    is_agent_running
        (registryAfterRun (startJobAndRunTask e s room_name identity o))
        room_name = true
      ∧ taskResultAfterRun (startJobAndRunTask e s room_name identity o)
          = some .raisedInit
      ∧ is_agent_running
          (stop_agent_job
            (registryAfterRun (startJobAndRunTask e s room_name identity o))
            room_name false)
          room_name = false := by
  have hsj : start_agent_job e s room_name identity
      = .ok ((room_name,
          ({ agent := mkVoiceAIAgent e room_name identity, taskDone := false }
            : AgentInfo)) :: s,
          some (mkVoiceAIAgent e room_name identity)) := by
    simp [start_agent_job, h0, h2]
  have hstart : (mkVoiceAIAgent e room_name identity).start e o
      = (.raisedInit,
          { mkVoiceAIAgent e room_name identity with running := false }) := by
    simp [VoiceAIAgent.start, init_ai_components, h1]
  have hrun : startJobAndRunTask e s room_name identity o
      = .ok (setRoom
          ((room_name,
            ({ agent := mkVoiceAIAgent e room_name identity, taskDone := false }
              : AgentInfo)) :: s)
          room_name
          ({ agent := { mkVoiceAIAgent e room_name identity with running := false }
             taskDone := true } : AgentInfo),
          some .raisedInit) := by
    simp [startJobAndRunTask, hsj, hstart, startReportsFailure]
  have hpresent : (lookupRoom
      ((room_name,
        ({ agent := mkVoiceAIAgent e room_name identity, taskDone := false }
          : AgentInfo)) :: s) room_name).isSome = true := by
    rw [lookupRoom_cons]
    simp
  have hlook := lookupRoom_setRoom
    ((room_name,
      ({ agent := mkVoiceAIAgent e room_name identity, taskDone := false }
        : AgentInfo)) :: s)
    room_name
    ({ agent := { mkVoiceAIAgent e room_name identity with running := false }
       taskDone := true } : AgentInfo)
    hpresent
  refine ⟨?_, ?_, ?_⟩
  · simp [registryAfterRun, hrun, is_agent_running, hlook]
  · simp [taskResultAfterRun, hrun]
  · rw [hrun]
    simp only [registryAfterRun, is_agent_running, stop_agent_job]
    rw [hlook]
    simp [VoiceAIAgent.stop, lookupRoom_popRoom]

/-- Witness for C8's amended theorem, on the empty registry in mock mode. -/
theorem startup_failure_keeps_entry_until_stop_witness :
    is_agent_running
        (registryAfterRun
          (startJobAndRunTask envAllUnset [] "room-8" "AI Agent" oracleInitFail))
        "room-8" = true
      ∧ is_agent_running
          (stop_agent_job
            (registryAfterRun
              (startJobAndRunTask envAllUnset [] "room-8" "AI Agent" oracleInitFail))
            "room-8" false)
          "room-8" = false :=
  ⟨(startup_failure_keeps_entry_until_stop envAllUnset [] "room-8" "AI Agent"
      oracleInitFail rfl rfl rfl).1,
   (startup_failure_keeps_entry_until_stop envAllUnset [] "room-8" "AI Agent"
      oracleInitFail rfl rfl rfl).2.2⟩

/-- C10: when the disconnect inside `agent.stop()` raises during
`stop_agent_job`, the exception is swallowed — the call still returns,
producing a registry rather than propagating — but the pop is never reached:
the entry for the room survives (only its `running` flag was reset), so a
subsequent `is_agent_running` still returns true. -/
theorem stop_error_swallowed_entry_kept (s : RegState) (room_name : String)
    (info : AgentInfo) (h : lookupRoom s room_name = some info)
    (hr : info.agent.room.isSome = true) :
    stop_agent_job s room_name true
        = setRoom s room_name
            { info with agent := { info.agent with running := false } }
      ∧ is_agent_running (stop_agent_job s room_name true) room_name = true := by
  have heq : stop_agent_job s room_name true
      = setRoom s room_name
          { info with agent := { info.agent with running := false } } := by
    simp [stop_agent_job, h, VoiceAIAgent.stop, hr]
  refine ⟨heq, ?_⟩
  rw [heq]
  unfold is_agent_running
  rw [lookupRoom_setRoom s room_name _ (by simp [h])]
  rfl

/-- A Live-mode session with an open connection for "room-2". -/
def liveAgentRoom2 : VoiceAIAgent :=
  { room_name := "room-2", identity := "AI Agent", mock_mode := false
    running := true, room := some () }

/-- Registry entry holding the connected live session. -/
def liveInfoRoom2 : AgentInfo := { agent := liveAgentRoom2, taskDone := false }

/-- Registry holding the connected live session for "room-2". -/
def regWithLiveRoom2 : RegState := [("room-2", liveInfoRoom2)]

/-- Witness for C10 on the connected live session: a raising stop leaves the
room reported as running. -/
theorem stop_error_swallowed_entry_kept_witness :
    is_agent_running (stop_agent_job regWithLiveRoom2 "room-2" true) "room-2"
      = true :=
  (stop_error_swallowed_entry_kept regWithLiveRoom2 "room-2" liveInfoRoom2
    (by decide) rfl).2

end WarmTransfer
